import Mathlib

/-!
Shallow embedding of the two Express services of the Entra Verified ID apps
repository (`issue-app/server.js` and `verify-app/server.js`) and proofs of
the tracker/endpoint properties stated in the specification.

Modelling conventions:
* The JS `Map` used as the in-process request store is an association list
  with exact-key get and replace-or-append set (`mapGet` / `mapSet`).
* Timestamps (`new Date()`) are `Nat` values supplied by the caller.
* Calls to external services (MSAL token acquisition, the Verified ID REST
  API, Microsoft Graph) are modelled by their outcomes, passed in as
  `Except String _` arguments: `.error e` is a thrown exception carrying the
  JS `error.message` (for token acquisition, `error.errorCode || error.message`).
* JS string-or-null/undefined values are `Option String`; the JS `a || b`
  fallback on such values is `Option.orElse` / `Option.getD` (nullish and
  absent both map to `none`).
* Generated UUIDs and the result of `Math.floor(Math.random() * k)` are
  inputs, making the nondeterminism explicit.
-/

namespace VerifiedId

/-- JS `Map.get`: exact key lookup in the association-list model. -/
def mapGet {α : Type} : List (String × α) → String → Option α
  | [], _ => none
  | (k', v) :: rest, k => if k' = k then some v else mapGet rest k

/-- JS `Map.set`: replace the binding for the key if present, else append. -/
def mapSet {α : Type} : List (String × α) → String → α → List (String × α)
  | [], k, v => [(k, v)]
  | (k', v') :: rest, k, v =>
    if k' = k then (k, v) :: rest else (k', v') :: mapSet rest k v

/-- The fields of the Verified ID API `response.data` that the services read
(`url`, `expiry`, `qrCode`). -/
structure ApiResponse where
  url : String
  expiry : String
  qrCode : String
deriving DecidableEq

/-- Counts how many times each external call was issued during one
`createIssuanceRequest` / `createVerificationRequest` evaluation. -/
structure CallLog where
  tokenCalls : Nat
  apiCalls : Nat
deriving DecidableEq

/-- HTTP response of the callback endpoints: `res.status(200).json({message})`. -/
structure CallbackResp where
  httpStatus : Nat
  message : String
deriving DecidableEq

/-- Body of the 404 answer of `GET /api/request-status/:requestId`. -/
structure NotFoundBody where
  success : Bool
  error : String
deriving DecidableEq

/-- Body of the 500 answer of the create endpoints:
`{success:false, error, message}`. -/
structure ErrorBody where
  success : Bool
  error : String
  message : String
deriving DecidableEq

/-- `getAccessToken` (identical in both servers): returns the token from
`acquireTokenByClientCredential`, or rethrows the failure wrapped as
`Failed to acquire access token: ...`. -/
def getAccessToken (tokenResult : Except String String) : Except String String :=
  match tokenResult with
  | .ok t => .ok t
  | .error e => .error ("Failed to acquire access token: " ++ e)

end VerifiedId

namespace VerifiedId.Issue

/-- One entry of `claims` inside the decoded `x-ms-client-principal` header. -/
structure ClaimEntry where
  typ : String
  val : String
deriving DecidableEq

/-- The decoded JSON carried by the `x-ms-client-principal` header. -/
structure ClientPrincipal where
  userId : Option String
  userDetails : Option String
  identityProvider : Option String
  authTyp : Option String
  claims : Option (List ClaimEntry)
deriving DecidableEq

/-- The user object built by `parseEasyAuthUser`. -/
structure EasyAuthUser where
  userId : Option String
  userDetails : Option String
  identityProvider : Option String
  name : Option String
  email : Option String
  givenName : Option String
  surname : Option String
  userPrincipalName : Option String
  isAuthenticated : Bool
deriving DecidableEq

/-- The `findClaim` helper inside `parseEasyAuthUser`:
`claims.find(c => c.typ === claimType)` and return its `val`, else null. -/
def findClaim (claims : List ClaimEntry) (claimType : String) : Option String :=
  (claims.find? (fun c => c.typ == claimType)).map (·.val)

/-- `parseEasyAuthUser`: read the `x-ms-client-principal` header (`none` when
absent), base64+JSON decode it (`decode`, `none` when decoding throws — the
surrounding try/catch returns null), then build the user object. -/
def parseEasyAuthUser (header : Option String)
    (decode : String → Option ClientPrincipal) : Option EasyAuthUser :=
  match header with
  | none => none
  | some h =>
    match decode h with
    | none => none
    | some p =>
      let cs := p.claims.getD []
      some
        { userId := p.userId
          userDetails := p.userDetails
          identityProvider := p.identityProvider.orElse fun _ => p.authTyp
          name := (findClaim cs "name").orElse fun _ => p.userDetails
          email :=
            ((((findClaim cs "http://schemas.xmlsoap.org/ws/2005/05/identity/claims/emailaddress").orElse
              fun _ => findClaim cs "email").orElse
              fun _ => findClaim cs "preferred_username").orElse
              fun _ => p.userDetails)
          givenName :=
            (findClaim cs "http://schemas.xmlsoap.org/ws/2005/05/identity/claims/givenname").orElse
              fun _ => findClaim cs "given_name"
          surname :=
            (findClaim cs "http://schemas.xmlsoap.org/ws/2005/05/identity/claims/surname").orElse
              fun _ => findClaim cs "family_name"
          userPrincipalName :=
            (((findClaim cs "http://schemas.xmlsoap.org/ws/2005/05/identity/claims/name").orElse
              fun _ => findClaim cs "upn").orElse
              fun _ => p.userDetails)
          isAuthenticated := true }

/-- Result of running a handler behind the `requireEasyAuth` middleware. -/
inductive AuthResult (R : Type) where
  | unauthorized (httpStatus : Nat) (error : String) (message : String)
  | handled (r : R)
deriving DecidableEq

/-- `requireEasyAuth`: reject with 401 and the fixed error body when
`parseEasyAuthUser` yields null, otherwise run the route handler on the
parsed user (`req.easyAuthUser`). -/
def requireEasyAuth {R : Type} (header : Option String)
    (decode : String → Option ClientPrincipal)
    (handler : EasyAuthUser → R) : AuthResult R :=
  match parseEasyAuthUser header decode with
  | none =>
    .unauthorized 401 "Authentication required"
      "Please sign in through Azure App Service authentication"
  | some u => .handled (handler u)

/-- Value of a single character as a digit in the given base, `none` when the
character is not a digit of that base. -/
def digitValue (base : Nat) (c : Char) : Option Nat :=
  if '0' ≤ c ∧ c ≤ '9' then
    let v := c.toNat - '0'.toNat
    if v < base then some v else none
  else if base = 16 ∧ 'a' ≤ c ∧ c ≤ 'f' then some (c.toNat - 'a'.toNat + 10)
  else if base = 16 ∧ 'A' ≤ c ∧ c ≤ 'F' then some (c.toNat - 'A'.toNat + 10)
  else none

/-- JS `parseInt(s)` with no radix argument: skip leading whitespace, read an
optional sign, switch to hexadecimal after a `0x`/`0X` marker, consume the
longest digit run and ignore everything after it; `none` models `NaN` (no
digit consumed). -/
def parseIntJs (s : String) : Option Int :=
  let cs := s.data.dropWhile Char.isWhitespace
  let signed : Int × List Char :=
    match cs with
    | '-' :: rest => (-1, rest)
    | '+' :: rest => (1, rest)
    | _ => (1, cs)
  let based : Nat × List Char :=
    match signed.2 with
    | '0' :: 'x' :: rest => (16, rest)
    | '0' :: 'X' :: rest => (16, rest)
    | _ => (10, signed.2)
  let ds := based.2.takeWhile (fun c => (digitValue based.1 c).isSome)
  if ds.isEmpty then none
  else
    some (signed.1 *
      (ds.foldl (fun acc c => acc * based.1 + (digitValue based.1 c).getD 0) 0 : Nat))

/-- The `pinCodeLength` startup computation: default 4; when the
`ISSUANCE_PIN_CODE_LENGTH` environment variable is set and truthy, `parseInt`
it and fall back to 4 when the result is `NaN`, negative, or greater than 6. -/
def pinCodeLength (envVar : Option String) : Nat :=
  match envVar with
  | none => 4
  | some s =>
    if s = "" then 4
    else
      match parseIntJs s with
      | none => 4
      | some i => if i < 0 ∨ 6 < i then 4 else i.toNat

/-- The user-profile record handed to `createIssuanceRequest` (the Graph
profile, or the Easy-Auth fallback profile, or any caller-supplied shape —
the function only reads these fields). -/
structure UserData where
  displayName : Option String
  firstName : Option String
  givenName : Option String
  lastName : Option String
  surname : Option String
  email : Option String
  mail : Option String
  jobTitle : Option String
  preferredLanguage : Option String
  userPrincipalName : Option String
  revocationId : Option String
  photo : Option String
deriving DecidableEq

/-- The `pin` object attached to the issuance request document. -/
structure PinSpec where
  value : String
  length : Nat
deriving DecidableEq

/-- The `claims` object of the issuance request document, with the JS `||`
fallback chains of `createIssuanceRequest`. -/
structure IssuanceClaims where
  displayName : String
  givenName : String
  surname : String
  mail : String
  jobTitle : String
  preferredLanguage : String
  userPrincipalName : String
  revocationId : String
  photo : Option String
deriving DecidableEq

/-- The issuance request document sent to the Verified ID API. -/
structure IssuanceRequestDoc where
  includeQRCode : Bool
  callbackUrl : String
  callbackState : String
  callbackApiKey : String
  authority : String
  clientName : String
  type : String
  manifest : String
  claims : IssuanceClaims
  pin : Option PinSpec
deriving DecidableEq

/-- The environment variables read by `createIssuanceRequest`. -/
structure Env where
  appUrl : String
  didAuthority : String
  clientName : Option String
  credentialType : String
  credentialManifest : String
deriving DecidableEq

/-- The issuance request document built inside `createIssuanceRequest`.
`freshId` is the generated `uuidv4()` correlation id, `revocationUuid` the
`uuidv4()` used when `userData.revocationId` is absent, and `pinRand` the
value of `Math.floor(Math.random() * (max - min + 1))`, so that the PIN is
`pinRand + min` with `min = 10 ^ (pinLen - 1)`. -/
def buildIssuanceRequest (env : Env) (userData : UserData)
    (freshId revocationUuid : String) (pinLen pinRand : Nat) : IssuanceRequestDoc :=
  let base : IssuanceRequestDoc :=
    { includeQRCode := true
      callbackUrl := env.appUrl ++ "/api/request-callback"
      callbackState := freshId
      callbackApiKey := "verifiedid-api-key"
      authority := env.didAuthority
      clientName := env.clientName.getD "Microsoft Entra Verified ID"
      type := env.credentialType
      manifest := env.credentialManifest
      claims :=
        { displayName := userData.displayName.getD
            (((userData.firstName.orElse fun _ => userData.givenName).getD "Employee") ++ " " ++
             ((userData.lastName.orElse fun _ => userData.surname).getD "User"))
          givenName := (userData.firstName.orElse fun _ => userData.givenName).getD "Employee"
          surname := (userData.lastName.orElse fun _ => userData.surname).getD "User"
          mail := (userData.email.orElse fun _ => userData.mail).getD "user@company.com"
          jobTitle := userData.jobTitle.getD "Employee"
          preferredLanguage := userData.preferredLanguage.getD "en-US"
          userPrincipalName :=
            ((userData.userPrincipalName.orElse fun _ => userData.email).orElse
              fun _ => userData.mail).getD "user@company.com"
          revocationId := userData.revocationId.getD revocationUuid
          photo := userData.photo }
      pin := none }
  if 0 < pinLen then
    { base with
        pin := some { value := Nat.repr (10 ^ (pinLen - 1) + pinRand), length := pinLen } }
  else base

/-- A tracked issuance request as stored in `requestStore`. -/
structure TrackedRequest where
  type : String
  status : String
  data : ApiResponse
  userData : UserData
  pin : Option String
  created : Nat
  updated : Option Nat
deriving DecidableEq

/-- The issue-app `requestStore` (a JS `Map`). -/
abbrev Store := List (String × TrackedRequest)

/-- The value returned by `createIssuanceRequest` on success. -/
structure IssueResult where
  requestId : String
  url : String
  expiry : String
  qrCode : String
  pin : Option String
deriving DecidableEq

/-- The explicit nondeterministic/external inputs of one
`createIssuanceRequest` run. -/
structure CreateInputs where
  tokenResult : Except String String
  freshId : String
  revocationUuid : String
  pinRand : Nat
  apiResult : Except String ApiResponse
  now : Nat

/-- `createIssuanceRequest`: acquire a token, build the issuance request
document (with a PIN when `pinLen > 0`), post it to the Verified ID API,
and on success store a tracked request under the fresh id; any failure is
rethrown as `Failed to create issuance request: ...` and nothing is stored. -/
def createIssuanceRequest (env : Env) (pinLen : Nat) (store : Store)
    (userData : UserData) (inp : CreateInputs) :
    Except String (Store × IssueResult) × CallLog :=
  match getAccessToken inp.tokenResult with
  | .error e => (.error ("Failed to create issuance request: " ++ e), ⟨1, 0⟩)
  | .ok _accessToken =>
    let doc := buildIssuanceRequest env userData inp.freshId inp.revocationUuid pinLen inp.pinRand
    match inp.apiResult with
    | .error e => (.error ("Failed to create issuance request: " ++ e), ⟨1, 1⟩)
    | .ok respData =>
      let record : TrackedRequest :=
        { type := "issuance", status := "request_created", data := respData,
          userData := userData, pin := doc.pin.map (·.value),
          created := inp.now, updated := none }
      (.ok (mapSet store inp.freshId record,
        { requestId := inp.freshId, url := respData.url, expiry := respData.expiry,
          qrCode := respData.qrCode, pin := doc.pin.map (·.value) }), ⟨1, 1⟩)

/-- Body of the 200 answer of `GET /api/request-status/:requestId`. -/
structure StatusBody where
  success : Bool
  requestId : String
  status : String
  type : String
  created : Nat
  pin : Option String
deriving DecidableEq

/-- Response of `GET /api/request-status/:requestId`. -/
inductive StatusResp where
  | notFound (httpStatus : Nat) (body : NotFoundBody)
  | ok (body : StatusBody)
deriving DecidableEq

/-- `GET /api/request-status/:requestId`: look the id up in the store; 404
with `{success:false, error:"Request not found"}` when absent, else the
stored status/type/created/pin. The handler does not write to the store. -/
def requestStatus (store : Store) (requestId : String) : StatusResp :=
  match mapGet store requestId with
  | none => .notFound 404 { success := false, error := "Request not found" }
  | some r =>
    .ok { success := true, requestId := requestId, status := r.status,
          type := r.type, created := r.created, pin := r.pin }

/-- `POST /api/request-callback`: when `body.state` names a stored request,
overwrite its `status` with `body.code` and stamp `updated`; otherwise leave
the store untouched. Always answers 200 `{message:'Callback received'}`. -/
def requestCallback (store : Store) (state code : String) (now : Nat) :
    Store × CallbackResp :=
  match mapGet store state with
  | none => (store, { httpStatus := 200, message := "Callback received" })
  | some r =>
    (mapSet store state { r with status := code, updated := some now },
     { httpStatus := 200, message := "Callback received" })

/-- The fixed photo-size variants tried by `getUserPhoto`, in program order. -/
def photoSizes : List String := ["240x240", "120x120", "96x96", "64x64", "48x48"]

/-- The size loop of `getUserPhoto`: try each size in order; an inner catch
turns a failed fetch into `continue`; first success breaks the loop. -/
def tryPhotoSizes (fetchPhoto : String → Except String String) :
    List String → Option String
  | [] => none
  | s :: rest =>
    match fetchPhoto s with
    | .ok p => some p
    | .error _ => tryPhotoSizes fetchPhoto rest

/-- `getUserPhoto`: try the fixed size variants in order, then the unsized
`/photo/$value` endpoint; encode the first photo obtained
(`encodeURIComponent` of the base64 bytes, modelled by `encodePhoto`); every
failure path is caught and becomes `null`. -/
def getUserPhoto (fetchPhoto : String → Except String String)
    (fetchDefaultPhoto : Except String String)
    (encodePhoto : String → String) : Option String :=
  match tryPhotoSizes fetchPhoto photoSizes with
  | some p => some (encodePhoto p)
  | none =>
    match fetchDefaultPhoto with
    | .ok p => some (encodePhoto p)
    | .error _ => none

/-- The reduced profile built from the Easy Auth data when the Graph profile
lookup fails (catch branch of `POST /api/issue-credential`). -/
def fallbackProfile (user : EasyAuthUser) : UserData :=
  { displayName := user.name
    firstName := none
    givenName := user.givenName.orElse
      fun _ => user.name.map fun n => (n.splitOn " ").headD ""
    lastName := none
    surname := user.surname.orElse
      fun _ => user.name.map fun n => String.intercalate " " ((n.splitOn " ").drop 1)
    email := none
    mail := user.email
    jobTitle := some "Employee"
    preferredLanguage := some "en-US"
    userPrincipalName := user.userPrincipalName.orElse fun _ => user.email
    revocationId := none
    photo := none }

/-- Body of the 200 answer of `POST /api/issue-credential`. -/
structure SuccessBody where
  success : Bool
  requestId : String
  url : String
  expiry : String
  qrCode : String
  pin : Option String
  message : String
deriving DecidableEq

/-- Response of `POST /api/issue-credential` (after the auth middleware). -/
inductive IssueResp where
  | ok (body : SuccessBody)
  | err (httpStatus : Nat) (body : ErrorBody)
deriving DecidableEq

/-- The try/catch around `createIssuanceRequest` in
`POST /api/issue-credential`: success becomes the 200 body, a thrown error
becomes 500 `{success:false, error, message}` and the store stays as it
was. -/
def issueCredentialCore (env : Env) (pinLen : Nat) (store : Store)
    (userProfile : UserData) (inp : CreateInputs) : Store × IssueResp × CallLog :=
  match createIssuanceRequest env pinLen store userProfile inp with
  | (.ok (store', r), log) =>
    (store', .ok { success := true, requestId := r.requestId, url := r.url,
                   expiry := r.expiry, qrCode := r.qrCode, pin := r.pin,
                   message := "Credential issuance request created successfully" }, log)
  | (.error e, log) =>
    (store, .err 500 { success := false, error := e,
                       message := "Failed to create credential issuance request" }, log)

/-- The full `POST /api/issue-credential` handler body (the part behind
`requireEasyAuth`): Graph profile with Easy-Auth fallback, best-effort photo
enrichment, then the issuance request. -/
def issueCredentialHandler (env : Env) (pinLen : Nat) (store : Store)
    (user : EasyAuthUser)
    (profileResult : Except String UserData)
    (fetchPhoto : String → Except String String)
    (fetchDefaultPhoto : Except String String)
    (encodePhoto : String → String)
    (inp : CreateInputs) : Store × IssueResp × CallLog :=
  let userProfile :=
    match profileResult with
    | .ok p => p
    | .error _ => fallbackProfile user
  let userProfile' :=
    match getUserPhoto fetchPhoto fetchDefaultPhoto encodePhoto with
    | some photo => { userProfile with photo := some photo }
    | none => userProfile
  issueCredentialCore env pinLen store userProfile' inp

end VerifiedId.Issue

namespace VerifiedId.Verify

/-- The `{includeFaceCheck}` options captured at creation time. -/
structure Options where
  includeFaceCheck : Bool
deriving DecidableEq

/-- A face-check outcome (`faceCheckPassed`, `confidence`), both as it
arrives in a callback payload and as stored in `faceCheckResult`. -/
structure FaceCheck where
  faceCheckPassed : Bool
  confidence : Nat
deriving DecidableEq

/-- One element of `verifiedCredentialsData` in a callback payload. The
`claims` and `credentialSubject` payloads are carried verbatim and never
inspected; they are modelled as key/value lists. -/
structure CredentialData where
  type : String
  issuer : String
  claims : List (String × String)
  credentialSubject : List (String × String)
  faceCheck : Option FaceCheck
deriving DecidableEq

/-- The `verifiedCredential` record attached by a successful callback. -/
structure VerifiedCredential where
  type : String
  issuer : String
  claims : List (String × String)
  credentialSubject : List (String × String)
deriving DecidableEq

/-- A tracked verification request as stored in `requestStore`. -/
structure TrackedRequest where
  type : String
  status : String
  data : ApiResponse
  options : Options
  created : Nat
  updated : Option Nat
  verifiedCredential : Option VerifiedCredential
  faceCheckResult : Option FaceCheck
deriving DecidableEq

/-- The verify-app `requestStore` (a JS `Map`). -/
abbrev Store := List (String × TrackedRequest)

/-- The `faceCheck` validation configuration added when face check is on. -/
structure FaceCheckConfig where
  sourcePhotoClaimName : String
  matchConfidenceThreshold : Nat
deriving DecidableEq

/-- The single entry of `requestedCredentials` in the presentation request. -/
structure RequestedCredential where
  type : String
  purpose : String
  acceptedIssuers : List String
  allowRevoked : Bool
  validateLinkedDomain : Bool
  faceCheck : Option FaceCheckConfig
deriving DecidableEq

/-- The presentation request document sent to the Verified ID API. -/
structure VerificationRequestDoc where
  includeQRCode : Bool
  callbackUrl : String
  callbackState : String
  callbackApiKey : String
  authority : String
  clientName : String
  purpose : String
  includeReceipt : Bool
  requestedCredential : RequestedCredential
deriving DecidableEq

/-- The environment variables read by `createVerificationRequest`. -/
structure Env where
  appUrl : String
  didAuthority : String
  clientName : Option String
  purpose : Option String
  credentialType : String
deriving DecidableEq

/-- The presentation request document built inside
`createVerificationRequest`, including the optional face-check validation
block. -/
def buildVerificationRequest (env : Env) (options : Options)
    (freshId : String) : VerificationRequestDoc :=
  { includeQRCode := true
    callbackUrl := env.appUrl ++ "/api/verification-callback"
    callbackState := freshId
    callbackApiKey := "verifiedid-api-key"
    authority := env.didAuthority
    clientName := env.clientName.getD "Microsoft Entra Verified ID Verifier"
    purpose := env.purpose.getD "To verify your credential status"
    includeReceipt := true
    requestedCredential :=
      { type := env.credentialType
        purpose := env.purpose.getD "To verify your credential status"
        acceptedIssuers := [env.didAuthority]
        allowRevoked := false
        validateLinkedDomain := true
        faceCheck :=
          if options.includeFaceCheck then
            some { sourcePhotoClaimName := "photo", matchConfidenceThreshold := 70 }
          else none } }

/-- The explicit nondeterministic/external inputs of one
`createVerificationRequest` run. -/
structure CreateInputs where
  tokenResult : Except String String
  freshId : String
  apiResult : Except String ApiResponse
  now : Nat

/-- The value returned by `createVerificationRequest` on success. -/
structure VerifyResult where
  requestId : String
  url : String
  expiry : String
  qrCode : String
deriving DecidableEq

/-- `createVerificationRequest`: acquire a token, build the presentation
request, post it, and on success store a tracked request under the fresh id;
any failure is rethrown as `Failed to create verification request: ...` and
nothing is stored. -/
def createVerificationRequest (env : Env) (store : Store) (options : Options)
    (inp : CreateInputs) : Except String (Store × VerifyResult) × CallLog :=
  match getAccessToken inp.tokenResult with
  | .error e => (.error ("Failed to create verification request: " ++ e), ⟨1, 0⟩)
  | .ok _accessToken =>
    let _doc := buildVerificationRequest env options inp.freshId
    match inp.apiResult with
    | .error e => (.error ("Failed to create verification request: " ++ e), ⟨1, 1⟩)
    | .ok respData =>
      let record : TrackedRequest :=
        { type := "verification", status := "request_created", data := respData,
          options := options, created := inp.now, updated := none,
          verifiedCredential := none, faceCheckResult := none }
      (.ok (mapSet store inp.freshId record,
        { requestId := inp.freshId, url := respData.url, expiry := respData.expiry,
          qrCode := respData.qrCode }), ⟨1, 1⟩)

/-- Body of the 200 answer of the verify-app
`GET /api/request-status/:requestId`. -/
structure StatusBody where
  success : Bool
  requestId : String
  status : String
  type : String
  created : Nat
  verifiedCredential : Option VerifiedCredential
  faceCheckResult : Option FaceCheck
deriving DecidableEq

/-- Response of the verify-app `GET /api/request-status/:requestId`. -/
inductive StatusResp where
  | notFound (httpStatus : Nat) (body : NotFoundBody)
  | ok (body : StatusBody)
deriving DecidableEq

/-- The verify-app `GET /api/request-status/:requestId`: 404 with
`{success:false, error:"Request not found"}` when the id is absent, else the
stored fields (with `verifiedCredential`/`faceCheckResult` defaulting to
null). The handler does not write to the store. -/
def requestStatus (store : Store) (requestId : String) : StatusResp :=
  match mapGet store requestId with
  | none => .notFound 404 { success := false, error := "Request not found" }
  | some r =>
    .ok { success := true, requestId := requestId, status := r.status,
          type := r.type, created := r.created,
          verifiedCredential := r.verifiedCredential,
          faceCheckResult := r.faceCheckResult }

/-- The payload of `POST /api/verification-callback`; an absent
`verifiedCredentialsData` array is the empty list. -/
structure CallbackBody where
  state : String
  code : String
  verifiedCredentialsData : List CredentialData

/-- `POST /api/verification-callback`: when `body.state` names a stored
request, overwrite its `status` and stamp `updated`; when the new status is
`presentation_verified` and `verifiedCredentialsData` is non-empty, attach
`verifiedCredential` from its first element and, if that element carries
`faceCheck` data, also `faceCheckResult`. Unknown ids leave the store
untouched. Always answers 200
`{message:'Verification callback received'}`. -/
def verificationCallback (store : Store) (body : CallbackBody) (now : Nat) :
    Store × CallbackResp :=
  match mapGet store body.state with
  | none => (store, { httpStatus := 200, message := "Verification callback received" })
  | some r =>
    let r1 : TrackedRequest := { r with status := body.code, updated := some now }
    let r2 : TrackedRequest :=
      if body.code = "presentation_verified" then
        match body.verifiedCredentialsData with
        | [] => r1
        | cd :: _ =>
          let vc : VerifiedCredential :=
            { type := cd.type, issuer := cd.issuer, claims := cd.claims,
              credentialSubject := cd.credentialSubject }
          let r' : TrackedRequest := { r1 with verifiedCredential := some vc }
          match cd.faceCheck with
          | some fc =>
            let fcr : FaceCheck :=
              { faceCheckPassed := fc.faceCheckPassed, confidence := fc.confidence }
            { r' with faceCheckResult := some fcr }
          | none => r'
      else r1
    (mapSet store body.state r2,
     { httpStatus := 200, message := "Verification callback received" })

end VerifiedId.Verify

namespace VerifiedId

/-! Concrete sample data used to instantiate the theorems below. -/

/-- A sample Verified ID API response. -/
def sampleResp : ApiResponse :=
  { url := "https://verifiedid.example/r", expiry := "1700000000", qrCode := "data:image/png;base64,Zm9v" }

/-- A sample user profile fed to `createIssuanceRequest`. -/
def sampleUserData : Issue.UserData :=
  { displayName := some "Jane Doe", firstName := none, givenName := some "Jane",
    lastName := none, surname := some "Doe", email := some "jane@contoso.com",
    mail := none, jobTitle := some "Engineer", preferredLanguage := none,
    userPrincipalName := some "jane@contoso.com", revocationId := none, photo := none }

/-- A sample tracked issuance request. -/
def sampleIssueRecord : Issue.TrackedRequest :=
  { type := "issuance", status := "request_created", data := sampleResp,
    userData := sampleUserData, pin := some "1000", created := 5, updated := none }

/-- A one-entry issue-app store. -/
def sampleIssueStore : Issue.Store := [("r1", sampleIssueRecord)]

/-- A sample tracked verification request. -/
def sampleVerifyRecord : Verify.TrackedRequest :=
  { type := "verification", status := "request_created", data := sampleResp,
    options := { includeFaceCheck := false }, created := 5, updated := none,
    verifiedCredential := none, faceCheckResult := none }

/-- A one-entry verify-app store. -/
def sampleVerifyStore : Verify.Store := [("v1", sampleVerifyRecord)]

/-- A sample `verifiedCredentialsData` element without face-check data. -/
def sampleCredentialData : Verify.CredentialData :=
  { type := "VerifiedEmployee", issuer := "did:web:contoso.example",
    claims := [("displayName", "Jane Doe")],
    credentialSubject := [("displayName", "Jane Doe")], faceCheck := none }

/-- Sample environment for the issue app. -/
def sampleEnvI : Issue.Env :=
  { appUrl := "https://issue.example", didAuthority := "did:web:contoso.example",
    clientName := none, credentialType := "VerifiedEmployee",
    credentialManifest := "https://manifest.example" }

/-- Sample external-call outcomes for one successful issuance creation. -/
def sampleInputsI : Issue.CreateInputs :=
  { tokenResult := .ok "token", freshId := "r1", revocationUuid := "rev-1",
    pinRand := 0, apiResult := .ok sampleResp, now := 5 }

/-- Sample environment for the verify app. -/
def sampleEnvV : Verify.Env :=
  { appUrl := "https://verify.example", didAuthority := "did:web:contoso.example",
    clientName := none, purpose := none, credentialType := "VerifiedEmployee" }

/-- Sample external-call outcomes for one successful verification creation. -/
def sampleInputsV : Verify.CreateInputs :=
  { tokenResult := .ok "token", freshId := "v1", apiResult := .ok sampleResp, now := 5 }

/-- The issue-app result of `sampleInputsI` with the default PIN length 4 and
`pinRand = 0` (PIN `1000`). -/
def sampleResI : Issue.IssueResult :=
  { requestId := "r1", url := sampleResp.url, expiry := sampleResp.expiry,
    qrCode := sampleResp.qrCode, pin := some "1000" }

/-- The verify-app result of `sampleInputsV`. -/
def sampleResV : Verify.VerifyResult :=
  { requestId := "v1", url := sampleResp.url, expiry := sampleResp.expiry,
    qrCode := sampleResp.qrCode }

/-- A sample decoded `x-ms-client-principal`. -/
def samplePrincipal : Issue.ClientPrincipal :=
  { userId := some "uid-1", userDetails := some "jane@contoso.com",
    identityProvider := some "aad", authTyp := none,
    claims := some [{ typ := "name", val := "Jane Doe" }] }

/-- A decoder that accepts every header as `samplePrincipal`. -/
def sampleDecode : String → Option Issue.ClientPrincipal := fun _ => some samplePrincipal

/-- A photo oracle for which only the `96x96` variant exists. -/
def samplePhotoFetch : String → Except String String :=
  fun s => if s = "96x96" then .ok "PIC" else .error "ImageNotFound"

/-- A photo oracle for which no variant exists. -/
def failPhotoFetch : String → Except String String := fun _ => .error "ImageNotFound"

/-- The store produced by running `sampleInputsI` against the empty store
with the default PIN length 4 and `pinRand = 0`. -/
def sampleIssueStore1 : Issue.Store :=
  [("r1", { type := "issuance", status := "request_created", data := sampleResp,
            userData := sampleUserData, pin := some "1000", created := 5, updated := none })]

/-- A verification callback payload carrying one verified credential. -/
def sampleCallbackBody : Verify.CallbackBody :=
  { state := "v1", code := "presentation_verified",
    verifiedCredentialsData := [sampleCredentialData] }

/-- A verification callback payload whose `state` matches no stored id. -/
def sampleGhostBody : Verify.CallbackBody :=
  { state := "ghost", code := "presentation_verified",
    verifiedCredentialsData := [sampleCredentialData] }

/-- A parsed Easy Auth user. -/
def sampleEasyUser : Issue.EasyAuthUser :=
  { userId := some "uid-1", userDetails := some "jane@contoso.com",
    identityProvider := some "aad", name := some "Jane Doe",
    email := some "jane@contoso.com", givenName := some "Jane",
    surname := some "Doe", userPrincipalName := some "jane@contoso.com",
    isAuthenticated := true }

/-- External-call outcomes in which token acquisition fails. -/
def failTokenInputs : Issue.CreateInputs :=
  { tokenResult := .error "invalid_client", freshId := "r2", revocationUuid := "rev-2",
    pinRand := 0, apiResult := .ok sampleResp, now := 9 }

/-- External-call outcomes in which the Verified ID API call fails. -/
def failApiInputs : Issue.CreateInputs :=
  { tokenResult := .ok "token", freshId := "r2", revocationUuid := "rev-2",
    pinRand := 0, apiResult := .error "Request failed with status code 400", now := 9 }

/-! Helper lemmas about the association-list map and `Nat.repr`. -/

/-- `Map.get` after `Map.set` of the same key sees the new value. -/
theorem mapGet_mapSet_self {α : Type} (m : List (String × α)) (k : String) (v : α) :
    mapGet (mapSet m k v) k = some v := by
  induction m with
  | nil => simp [mapGet, mapSet]
  | cons hd tl ih =>
    obtain ⟨k', v'⟩ := hd
    by_cases h : k' = k
    · simp [mapGet, mapSet, h]
    · simp [mapGet, mapSet, h, ih]

/-- With positive fuel bounding the value, `Nat.toDigitsCore` emits exactly
`log b n + 1` digits in front of the accumulator. -/
theorem toDigitsCore_length_exact (b : Nat) (hb : 2 ≤ b) :
    ∀ (f n : Nat) (acc : List Char), 0 < f → n < b ^ f →
      (Nat.toDigitsCore b f n acc).length = Nat.log b n + 1 + acc.length := by
  intro f
  induction f with
  | zero => intro n acc h _; exact absurd h (lt_irrefl 0)
  | succ f ih =>
    intro n acc _ hlt
    by_cases hdiv : n / b = 0
    · have hb0 : 0 < b := by omega
      have hn : n < b := by
        by_contra hcon
        push_neg at hcon
        have := Nat.div_pos hcon hb0
        omega
      have hlog : Nat.log b n = 0 := Nat.log_eq_zero_iff.mpr (Or.inl hn)
      simp [Nat.toDigitsCore, hdiv, hlog]
      omega
    · have hb0 : 0 < b := by omega
      have hbn : b ≤ n := by
        by_contra hcon
        push_neg at hcon
        exact hdiv (Nat.div_eq_of_lt hcon)
      have hf : 0 < f := by
        rcases Nat.eq_zero_or_pos f with hf0 | hf0
        · subst hf0
          simp only [pow_succ, pow_zero, one_mul] at hlt
          omega
        · exact hf0
      have hrec : n / b < b ^ f := by
        apply (Nat.div_lt_iff_lt_mul hb0).mpr
        calc n < b ^ (f + 1) := hlt
        _ = b ^ f * b := by rw [pow_succ]
      have hstep := ih (n / b) (Nat.digitChar (n % b) :: acc) hf hrec
      have hlogdiv : Nat.log b (n / b) = Nat.log b n - 1 := Nat.log_div_base b n
      have hlogpos : 0 < Nat.log b n := Nat.log_pos (by omega) hbn
      simp only [Nat.toDigitsCore, hdiv, if_false]
      rw [hstep]
      simp only [List.length_cons]
      omega

/-- `Nat.repr` always prints exactly `log 10 n + 1` characters. -/
theorem repr_length_eq (n : Nat) : (Nat.repr n).length = Nat.log 10 n + 1 := by
  have h1 : n < 10 ^ (n + 1) := by
    calc n < 10 ^ n := Nat.lt_pow_self (by norm_num) n
    _ ≤ 10 ^ (n + 1) := Nat.pow_le_pow_right (by norm_num) (by omega)
  have h := toDigitsCore_length_exact 10 (by norm_num) (n + 1) n [] (by omega) h1
  simpa [Nat.repr, Nat.toDigits, String.length, List.asString] using h

/-- A number with exactly `L` decimal digits prints as a string of length
`L`. -/
theorem repr_length_of_digits {L n : Nat} (hL : 0 < L)
    (h1 : 10 ^ (L - 1) ≤ n) (h2 : n < 10 ^ L) : (Nat.repr n).length = L := by
  rw [repr_length_eq]
  have h2' : n < 10 ^ (L - 1 + 1) := by
    have hLL : L - 1 + 1 = L := by omega
    rw [hLL]
    exact h2
  have hlog : Nat.log 10 n = L - 1 := Nat.log_eq_of_pow_le_of_lt_pow h1 h2'
  omega

/-- Status polling right after a `mapSet` sees exactly the stored record
(issue app). -/
theorem issue_requestStatus_after_set (store : Issue.Store) (id : String)
    (r : Issue.TrackedRequest) :
    Issue.requestStatus (mapSet store id r) id
      = .ok { success := true, requestId := id, status := r.status,
              type := r.type, created := r.created, pin := r.pin } := by
  unfold Issue.requestStatus
  rw [mapGet_mapSet_self]

/-- Status polling right after a `mapSet` sees exactly the stored record
(verify app). -/
theorem verify_requestStatus_after_set (store : Verify.Store) (id : String)
    (r : Verify.TrackedRequest) :
    Verify.requestStatus (mapSet store id r) id
      = .ok { success := true, requestId := id, status := r.status,
              type := r.type, created := r.created,
              verifiedCredential := r.verifiedCredential,
              faceCheckResult := r.faceCheckResult } := by
  unfold Verify.requestStatus
  rw [mapGet_mapSet_self]

/-- The issuance callback on an id that is present: the status is
overwritten, `updated` is stamped, and the endpoint answers 200. -/
theorem issue_requestCallback_found (store : Issue.Store) (id code : String)
    (now : Nat) (r : Issue.TrackedRequest) (h : mapGet store id = some r) :
    Issue.requestCallback store id code now
      = (mapSet store id { r with status := code, updated := some now },
         { httpStatus := 200, message := "Callback received" }) := by
  unfold Issue.requestCallback
  rw [h]

/-- The photo-size loop returns the first size that fetches successfully. -/
theorem tryPhotoSizes_first_success (fetch : String → Except String String)
    (s p : String) :
    ∀ (pre post : List String), (∀ s', s' ∈ pre → ∃ e, fetch s' = .error e) →
      fetch s = .ok p →
      Issue.tryPhotoSizes fetch (pre ++ s :: post) = some p := by
  intro pre
  induction pre with
  | nil =>
    intro post _ hs
    simp [Issue.tryPhotoSizes, hs]
  | cons hd tl ih =>
    intro post hpre hs
    obtain ⟨e, he⟩ := hpre hd (List.mem_cons_self hd tl)
    simp only [List.cons_append, Issue.tryPhotoSizes, he]
    exact ih post (fun s' hs' => hpre s' (List.mem_cons_of_mem hd hs')) hs

/-- The photo-size loop finds nothing when every size fails. -/
theorem tryPhotoSizes_none (fetch : String → Except String String) :
    ∀ (l : List String), (∀ s, s ∈ l → ∃ e, fetch s = .error e) →
      Issue.tryPhotoSizes fetch l = none := by
  intro l
  induction l with
  | nil => intro _; rfl
  | cons hd tl ih =>
    intro hall
    obtain ⟨e, he⟩ := hall hd (List.mem_cons_self hd tl)
    simp only [Issue.tryPhotoSizes, he]
    exact ih fun s hs => hall s (List.mem_cons_of_mem hd hs)

/-! The claim theorems. -/

/-- C1: whenever `createIssuanceRequest` / `createVerificationRequest`
returns successfully, polling the returned id immediately afterwards
succeeds and reports status `request_created`, the type of the respective
workflow kind, and the creation timestamp. -/
theorem create_then_get_request_created
    (envI : Issue.Env) (pinLen : Nat) (storeI : Issue.Store) (u : Issue.UserData)
    (inpI : Issue.CreateInputs) (storeI' : Issue.Store) (resI : Issue.IssueResult)
    (hI : (Issue.createIssuanceRequest envI pinLen storeI u inpI).1 = .ok (storeI', resI))
    (envV : Verify.Env) (storeV : Verify.Store) (opts : Verify.Options)
    (inpV : Verify.CreateInputs) (storeV' : Verify.Store) (resV : Verify.VerifyResult)
    (hV : (Verify.createVerificationRequest envV storeV opts inpV).1 = .ok (storeV', resV)) :
    (∃ body : Issue.StatusBody,
        Issue.requestStatus storeI' resI.requestId = .ok body ∧
        body.status = "request_created" ∧ body.type = "issuance" ∧
        body.created = inpI.now) ∧
    (∃ body : Verify.StatusBody,
        Verify.requestStatus storeV' resV.requestId = .ok body ∧
        body.status = "request_created" ∧ body.type = "verification" ∧
        body.created = inpV.now) := by
  constructor
  · rcases htok : inpI.tokenResult with e | t
    · simp [Issue.createIssuanceRequest, getAccessToken, htok] at hI
    · rcases hapi : inpI.apiResult with e | resp
      · simp [Issue.createIssuanceRequest, getAccessToken, htok, hapi] at hI
      · simp only [Issue.createIssuanceRequest, getAccessToken, htok, hapi,
          Except.ok.injEq, Prod.mk.injEq] at hI
        obtain ⟨hstore, hres⟩ := hI
        subst hstore
        subst hres
        exact ⟨_, issue_requestStatus_after_set _ _ _, rfl, rfl, rfl⟩
  · rcases htok : inpV.tokenResult with e | t
    · simp [Verify.createVerificationRequest, getAccessToken, htok] at hV
    · rcases hapi : inpV.apiResult with e | resp
      · simp [Verify.createVerificationRequest, getAccessToken, htok, hapi] at hV
      · simp only [Verify.createVerificationRequest, getAccessToken, htok, hapi,
          Except.ok.injEq, Prod.mk.injEq] at hV
        obtain ⟨hstore, hres⟩ := hV
        subst hstore
        subst hres
        exact ⟨_, verify_requestStatus_after_set _ _ _, rfl, rfl, rfl⟩

/-- Witness for C1 on concrete data. -/
theorem create_then_get_request_created_witness :
    ((Issue.createIssuanceRequest sampleEnvI 4 [] sampleUserData sampleInputsI).1
      = .ok (sampleIssueStore1, sampleResI)) ∧
    ((Verify.createVerificationRequest sampleEnvV [] { includeFaceCheck := false }
        sampleInputsV).1 = .ok (sampleVerifyStore, sampleResV)) ∧
    ((∃ body : Issue.StatusBody,
        Issue.requestStatus sampleIssueStore1 sampleResI.requestId = .ok body ∧
        body.status = "request_created" ∧ body.type = "issuance" ∧
        body.created = sampleInputsI.now) ∧
     (∃ body : Verify.StatusBody,
        Verify.requestStatus sampleVerifyStore sampleResV.requestId = .ok body ∧
        body.status = "request_created" ∧ body.type = "verification" ∧
        body.created = sampleInputsV.now)) :=
  ⟨rfl, rfl,
    create_then_get_request_created sampleEnvI 4 [] sampleUserData sampleInputsI
      sampleIssueStore1 sampleResI rfl sampleEnvV [] { includeFaceCheck := false }
      sampleInputsV sampleVerifyStore sampleResV rfl⟩

/-- C2: the issuance callback overwrites the status of a stored request
unconditionally and without transition validation: after updating to `a` and
then to `b`, the stored status is `b` (for any `a`, `b`, including `a = b`
and a terminal `a`), and both callback calls answer 200. -/
theorem callback_overwrites_status
    (store : Issue.Store) (id a b : String) (r : Issue.TrackedRequest) (t1 t2 : Nat)
    (h : mapGet store id = some r) :
    ((mapGet ((Issue.requestCallback ((Issue.requestCallback store id a t1).1) id b t2).1)
        id).map fun r2 => r2.status) = some b ∧
    (Issue.requestCallback store id a t1).2
      = { httpStatus := 200, message := "Callback received" } ∧
    (Issue.requestCallback ((Issue.requestCallback store id a t1).1) id b t2).2
      = { httpStatus := 200, message := "Callback received" } := by
  have h1 := issue_requestCallback_found store id a t1 r h
  have hget1 : mapGet (Issue.requestCallback store id a t1).1 id
      = some { r with status := a, updated := some t1 } := by
    rw [h1]; exact mapGet_mapSet_self _ _ _
  have h2 := issue_requestCallback_found ((Issue.requestCallback store id a t1).1)
    id b t2 _ hget1
  refine ⟨?_, ?_, ?_⟩
  · rw [h2, mapGet_mapSet_self]
    rfl
  · rw [h1]
  · rw [h2]

/-- Witness for C2: a terminal status is overwritten on concrete data. -/
theorem callback_overwrites_status_witness :
    mapGet sampleIssueStore "r1" = some sampleIssueRecord ∧
    (((mapGet ((Issue.requestCallback ((Issue.requestCallback sampleIssueStore "r1"
          "issuance_successful" 6).1) "r1" "issuance_error" 7).1) "r1").map
        fun r2 => r2.status) = some "issuance_error" ∧
      (Issue.requestCallback sampleIssueStore "r1" "issuance_successful" 6).2
        = { httpStatus := 200, message := "Callback received" } ∧
      (Issue.requestCallback ((Issue.requestCallback sampleIssueStore "r1"
          "issuance_successful" 6).1) "r1" "issuance_error" 7).2
        = { httpStatus := 200, message := "Callback received" }) :=
  ⟨rfl, callback_overwrites_status sampleIssueStore "r1" "issuance_successful"
    "issuance_error" sampleIssueRecord 6 7 rfl⟩

/-- C3: a callback whose correlation id is unknown leaves the store exactly
as it was, in both services, and still answers 200 with the confirmation
message. -/
theorem unknown_callback_is_noop
    (storeI : Issue.Store) (idI code : String) (t : Nat)
    (hI : mapGet storeI idI = none)
    (storeV : Verify.Store) (body : Verify.CallbackBody) (tV : Nat)
    (hV : mapGet storeV body.state = none) :
    Issue.requestCallback storeI idI code t
      = (storeI, { httpStatus := 200, message := "Callback received" }) ∧
    Verify.verificationCallback storeV body tV
      = (storeV, { httpStatus := 200, message := "Verification callback received" }) := by
  constructor
  · simp [Issue.requestCallback, hI]
  · simp [Verify.verificationCallback, hV]

/-- Witness for C3 on concrete data. -/
theorem unknown_callback_is_noop_witness :
    mapGet sampleIssueStore "ghost" = none ∧
    mapGet sampleVerifyStore sampleGhostBody.state = none ∧
    (Issue.requestCallback sampleIssueStore "ghost" "issuance_successful" 6
      = (sampleIssueStore, { httpStatus := 200, message := "Callback received" }) ∧
     Verify.verificationCallback sampleVerifyStore sampleGhostBody 6
      = (sampleVerifyStore,
         { httpStatus := 200, message := "Verification callback received" })) :=
  ⟨rfl, rfl,
    unknown_callback_is_noop sampleIssueStore "ghost" "issuance_successful" 6 rfl
      sampleVerifyStore sampleGhostBody 6 rfl⟩

/-- C4: polling any id that has no entry in the store — including malformed
strings, which are looked up like any other — yields a 404 with body
`{success:false, error:"Request not found"}`, in both services; the status
handlers never write to the store. -/
theorem get_unknown_returns_404
    (storeI : Issue.Store) (idI : String) (hI : mapGet storeI idI = none)
    (storeV : Verify.Store) (idV : String) (hV : mapGet storeV idV = none) :
    Issue.requestStatus storeI idI
      = .notFound 404 { success := false, error := "Request not found" } ∧
    Verify.requestStatus storeV idV
      = .notFound 404 { success := false, error := "Request not found" } := by
  constructor
  · simp [Issue.requestStatus, hI]
  · simp [Verify.requestStatus, hV]

/-- Witness for C4 with a syntactically malformed id. -/
theorem get_unknown_returns_404_witness :
    mapGet sampleIssueStore "!!not-a-uuid!!" = none ∧
    mapGet sampleVerifyStore "!!not-a-uuid!!" = none ∧
    (Issue.requestStatus sampleIssueStore "!!not-a-uuid!!"
      = .notFound 404 { success := false, error := "Request not found" } ∧
     Verify.requestStatus sampleVerifyStore "!!not-a-uuid!!"
      = .notFound 404 { success := false, error := "Request not found" }) :=
  ⟨rfl, rfl,
    get_unknown_returns_404 sampleIssueStore "!!not-a-uuid!!" rfl
      sampleVerifyStore "!!not-a-uuid!!" rfl⟩

/-- C5: result attachment is the single special-cased check of the
verification callback: a callback with status `presentation_verified` and a
non-empty `verifiedCredentialsData` attaches `verifiedCredential` built from
the first element (plus `faceCheckResult` when face-check data is present),
and a subsequent status poll returns that status with the result; a callback
with any other status attaches no result. -/
theorem verification_callback_attaches_result
    (store : Verify.Store) (body : Verify.CallbackBody) (now : Nat)
    (r : Verify.TrackedRequest) (h : mapGet store body.state = some r) :
    (∀ cd rest, body.code = "presentation_verified" →
      body.verifiedCredentialsData = cd :: rest →
      ∃ r2, mapGet (Verify.verificationCallback store body now).1 body.state = some r2 ∧
        r2.status = "presentation_verified" ∧
        r2.verifiedCredential
          = some ({ type := cd.type, issuer := cd.issuer, claims := cd.claims,
                    credentialSubject := cd.credentialSubject }) ∧
        r2.faceCheckResult = (match cd.faceCheck with
          | some fc => some ({ faceCheckPassed := fc.faceCheckPassed,
                               confidence := fc.confidence })
          | none => r.faceCheckResult) ∧
        (∃ sbody, Verify.requestStatus (Verify.verificationCallback store body now).1
            body.state = .ok sbody ∧ sbody.status = "presentation_verified" ∧
          sbody.verifiedCredential = r2.verifiedCredential ∧
          sbody.faceCheckResult = r2.faceCheckResult)) ∧
    (body.code ≠ "presentation_verified" →
      ∃ r2, mapGet (Verify.verificationCallback store body now).1 body.state = some r2 ∧
        r2.status = body.code ∧ r2.verifiedCredential = r.verifiedCredential ∧
        r2.faceCheckResult = r.faceCheckResult) := by
  constructor
  · intro cd rest hcode hdata
    simp only [Verify.verificationCallback, h, hcode, hdata]
    rcases hfc : cd.faceCheck with _ | fc
    · simp only [hfc]
      exact ⟨_, mapGet_mapSet_self _ _ _, rfl, rfl, rfl,
        ⟨_, verify_requestStatus_after_set _ _ _, rfl, rfl, rfl⟩⟩
    · simp only [hfc]
      exact ⟨_, mapGet_mapSet_self _ _ _, rfl, rfl, rfl,
        ⟨_, verify_requestStatus_after_set _ _ _, rfl, rfl, rfl⟩⟩
  · intro hne
    simp only [Verify.verificationCallback, h, if_neg hne]
    exact ⟨_, mapGet_mapSet_self _ _ _, rfl, rfl, rfl⟩

/-- Witness for C5 on concrete data: `presentation_verified` with a
displayName claim attaches the result. -/
theorem verification_callback_attaches_result_witness :
    mapGet sampleVerifyStore sampleCallbackBody.state = some sampleVerifyRecord ∧
    sampleCallbackBody.code = "presentation_verified" ∧
    sampleCallbackBody.verifiedCredentialsData = [sampleCredentialData] ∧
    (∃ r2, mapGet (Verify.verificationCallback sampleVerifyStore sampleCallbackBody 9).1
        sampleCallbackBody.state = some r2 ∧
      r2.status = "presentation_verified" ∧
      r2.verifiedCredential
        = some ({ type := sampleCredentialData.type,
                  issuer := sampleCredentialData.issuer,
                  claims := sampleCredentialData.claims,
                  credentialSubject := sampleCredentialData.credentialSubject }) ∧
      r2.faceCheckResult = (match sampleCredentialData.faceCheck with
        | some fc => some ({ faceCheckPassed := fc.faceCheckPassed,
                             confidence := fc.confidence })
        | none => sampleVerifyRecord.faceCheckResult) ∧
      (∃ sbody, Verify.requestStatus
          (Verify.verificationCallback sampleVerifyStore sampleCallbackBody 9).1
          sampleCallbackBody.state = .ok sbody ∧
        sbody.status = "presentation_verified" ∧
        sbody.verifiedCredential = r2.verifiedCredential ∧
        sbody.faceCheckResult = r2.faceCheckResult)) :=
  ⟨rfl, rfl, rfl,
    (verification_callback_attaches_result sampleVerifyStore sampleCallbackBody 9
      sampleVerifyRecord rfl).1 sampleCredentialData [] rfl rfl⟩

/-- C6: a request to a route behind `requireEasyAuth` without the
`x-ms-client-principal` header is rejected with 401 and the fixed error body
regardless of the handler (so no operation runs), and a request whose header
decodes successfully is passed on to the handler with the parsed user. -/
theorem easy_auth_gate {R : Type} (decode : String → Option Issue.ClientPrincipal)
    (handler : Issue.EasyAuthUser → R) :
    (Issue.requireEasyAuth none decode handler
      = .unauthorized 401 "Authentication required"
          "Please sign in through Azure App Service authentication") ∧
    (∀ h p, decode h = some p →
      ∃ u, Issue.parseEasyAuthUser (some h) decode = some u ∧
        Issue.requireEasyAuth (some h) decode handler = .handled (handler u)) := by
  constructor
  · rfl
  · intro h p hp
    simp only [Issue.requireEasyAuth, Issue.parseEasyAuthUser, hp]
    exact ⟨_, rfl, rfl⟩

/-- Witness for C6 on a concrete decoder and handler. -/
theorem easy_auth_gate_witness :
    sampleDecode "aGVhZGVy" = some samplePrincipal ∧
    (Issue.requireEasyAuth none sampleDecode (fun u => u.isAuthenticated)
      = .unauthorized 401 "Authentication required"
          "Please sign in through Azure App Service authentication") ∧
    (∃ u, Issue.parseEasyAuthUser (some "aGVhZGVy") sampleDecode = some u ∧
      Issue.requireEasyAuth (some "aGVhZGVy") sampleDecode (fun u => u.isAuthenticated)
        = .handled u.isAuthenticated) :=
  ⟨rfl, (easy_auth_gate sampleDecode fun u => u.isAuthenticated).1,
    (easy_auth_gate sampleDecode fun u => u.isAuthenticated).2 "aGVhZGVy"
      samplePrincipal rfl⟩

/-- C8: a callback update of an existing tracked request changes only the
status, the updated-timestamp (and, in the verify app, the result fields):
the kind, the creation timestamp, the caller-supplied metadata
(`userData`/`options`), the stored API data and the issuance pin are
unchanged. -/
theorem callback_preserves_immutable_fields
    (storeI : Issue.Store) (id code : String) (now : Nat) (r : Issue.TrackedRequest)
    (hI : mapGet storeI id = some r)
    (storeV : Verify.Store) (body : Verify.CallbackBody) (nowV : Nat)
    (rv : Verify.TrackedRequest) (hV : mapGet storeV body.state = some rv) :
    (∃ r2, mapGet (Issue.requestCallback storeI id code now).1 id = some r2 ∧
      r2.status = code ∧ r2.updated = some now ∧ r2.type = r.type ∧
      r2.created = r.created ∧ r2.userData = r.userData ∧ r2.pin = r.pin ∧
      r2.data = r.data) ∧
    (∃ r2, mapGet (Verify.verificationCallback storeV body nowV).1 body.state = some r2 ∧
      r2.status = body.code ∧ r2.updated = some nowV ∧ r2.type = rv.type ∧
      r2.created = rv.created ∧ r2.options = rv.options ∧ r2.data = rv.data) := by
  constructor
  · rw [issue_requestCallback_found storeI id code now r hI, mapGet_mapSet_self]
    exact ⟨_, rfl, rfl, rfl, rfl, rfl, rfl, rfl, rfl⟩
  · by_cases hcode : body.code = "presentation_verified"
    · rcases hd : body.verifiedCredentialsData with _ | ⟨cd, rest⟩
      · simp only [Verify.verificationCallback, hV, hcode, hd]
        exact ⟨_, mapGet_mapSet_self _ _ _, rfl, rfl, rfl, rfl, rfl, rfl⟩
      · rcases hfc : cd.faceCheck with _ | fc
        · simp only [Verify.verificationCallback, hV, hcode, hd, hfc]
          exact ⟨_, mapGet_mapSet_self _ _ _, rfl, rfl, rfl, rfl, rfl, rfl⟩
        · simp only [Verify.verificationCallback, hV, hcode, hd, hfc]
          exact ⟨_, mapGet_mapSet_self _ _ _, rfl, rfl, rfl, rfl, rfl, rfl⟩
    · simp only [Verify.verificationCallback, hV, if_neg hcode]
      exact ⟨_, mapGet_mapSet_self _ _ _, rfl, rfl, rfl, rfl, rfl, rfl⟩

/-- Witness for C8 on concrete data. -/
theorem callback_preserves_immutable_fields_witness :
    mapGet sampleIssueStore "r1" = some sampleIssueRecord ∧
    mapGet sampleVerifyStore sampleCallbackBody.state = some sampleVerifyRecord ∧
    ((∃ r2, mapGet (Issue.requestCallback sampleIssueStore "r1" "issuance_successful" 8).1
        "r1" = some r2 ∧
      r2.status = "issuance_successful" ∧ r2.updated = some 8 ∧
      r2.type = sampleIssueRecord.type ∧ r2.created = sampleIssueRecord.created ∧
      r2.userData = sampleIssueRecord.userData ∧ r2.pin = sampleIssueRecord.pin ∧
      r2.data = sampleIssueRecord.data) ∧
     (∃ r2, mapGet (Verify.verificationCallback sampleVerifyStore sampleCallbackBody 8).1
        sampleCallbackBody.state = some r2 ∧
      r2.status = sampleCallbackBody.code ∧ r2.updated = some 8 ∧
      r2.type = sampleVerifyRecord.type ∧ r2.created = sampleVerifyRecord.created ∧
      r2.options = sampleVerifyRecord.options ∧ r2.data = sampleVerifyRecord.data)) :=
  ⟨rfl, rfl,
    callback_preserves_immutable_fields sampleIssueStore "r1" "issuance_successful" 8
      sampleIssueRecord rfl sampleVerifyStore sampleCallbackBody 8 sampleVerifyRecord rfl⟩

/-- C7: when token acquisition or the Verified ID create-request call fails,
`POST /api/issue-credential` answers 500 with
`{success:false, error, message}`, the request store is unchanged, and the
call log shows that neither external call was issued more than once (no
retry). -/
theorem create_failure_responds_500
    (env : Issue.Env) (pinLen : Nat) (store : Issue.Store) (user : Issue.EasyAuthUser)
    (profileResult : Except String Issue.UserData)
    (fetchPhoto : String → Except String String)
    (fetchDefaultPhoto : Except String String) (encodePhoto : String → String)
    (inp : Issue.CreateInputs) :
    (∀ e, inp.tokenResult = .error e →
      Issue.issueCredentialHandler env pinLen store user profileResult fetchPhoto
          fetchDefaultPhoto encodePhoto inp
        = (store,
           .err 500
             { success := false
               error :=
                 "Failed to create issuance request: "
                   ++ ("Failed to acquire access token: " ++ e)
               message := "Failed to create credential issuance request" },
           { tokenCalls := 1, apiCalls := 0 })) ∧
    (∀ t e, inp.tokenResult = .ok t → inp.apiResult = .error e →
      Issue.issueCredentialHandler env pinLen store user profileResult fetchPhoto
          fetchDefaultPhoto encodePhoto inp
        = (store,
           .err 500
             { success := false
               error := "Failed to create issuance request: " ++ e
               message := "Failed to create credential issuance request" },
           { tokenCalls := 1, apiCalls := 1 })) := by
  constructor
  · intro e he
    simp only [Issue.issueCredentialHandler, Issue.issueCredentialCore,
      Issue.createIssuanceRequest, getAccessToken, he]
  · intro t e ht he
    simp only [Issue.issueCredentialHandler, Issue.issueCredentialCore,
      Issue.createIssuanceRequest, getAccessToken, ht, he]

/-- Witness for C7 on concrete failing calls. -/
theorem create_failure_responds_500_witness :
    failTokenInputs.tokenResult = .error "invalid_client" ∧
    failApiInputs.tokenResult = .ok "token" ∧
    failApiInputs.apiResult = .error "Request failed with status code 400" ∧
    (Issue.issueCredentialHandler sampleEnvI 4 sampleIssueStore sampleEasyUser
        (.ok sampleUserData) failPhotoFetch (.error "NoPhoto") id failTokenInputs
      = (sampleIssueStore,
         .err 500
           { success := false
             error :=
               "Failed to create issuance request: "
                 ++ ("Failed to acquire access token: " ++ "invalid_client")
             message := "Failed to create credential issuance request" },
         { tokenCalls := 1, apiCalls := 0 })) ∧
    (Issue.issueCredentialHandler sampleEnvI 4 sampleIssueStore sampleEasyUser
        (.ok sampleUserData) failPhotoFetch (.error "NoPhoto") id failApiInputs
      = (sampleIssueStore,
         .err 500
           { success := false
             error :=
               "Failed to create issuance request: "
                 ++ "Request failed with status code 400"
             message := "Failed to create credential issuance request" },
         { tokenCalls := 1, apiCalls := 1 })) :=
  ⟨rfl, rfl, rfl,
    (create_failure_responds_500 sampleEnvI 4 sampleIssueStore sampleEasyUser
      (.ok sampleUserData) failPhotoFetch (.error "NoPhoto") id failTokenInputs).1
      "invalid_client" rfl,
    (create_failure_responds_500 sampleEnvI 4 sampleIssueStore sampleEasyUser
      (.ok sampleUserData) failPhotoFetch (.error "NoPhoto") id failApiInputs).2
      "token" "Request failed with status code 400" rfl rfl⟩

/-- C9: `getUserPhoto` tries the fixed size variants 240x240, 120x120,
96x96, 64x64, 48x48 in that order, the first success wins, and the result is
`null` when no photo is available; a failed lookup never surfaces as an
error — the issue-credential handler behaves exactly as if no photo step
existed. -/
theorem photo_lookup_first_success_or_null
    (fetchPhoto : String → Except String String)
    (fetchDefaultPhoto : Except String String) (encodePhoto : String → String) :
    Issue.photoSizes = ["240x240", "120x120", "96x96", "64x64", "48x48"] ∧
    (∀ pre s post p, Issue.photoSizes = pre ++ s :: post →
      (∀ s', s' ∈ pre → ∃ e, fetchPhoto s' = .error e) →
      fetchPhoto s = .ok p →
      Issue.getUserPhoto fetchPhoto fetchDefaultPhoto encodePhoto
        = some (encodePhoto p)) ∧
    ((∀ s, s ∈ Issue.photoSizes → ∃ e, fetchPhoto s = .error e) →
      (∃ e, fetchDefaultPhoto = .error e) →
      Issue.getUserPhoto fetchPhoto fetchDefaultPhoto encodePhoto = none) ∧
    (∀ env pinLen store user profileResult inp,
      (∀ s, s ∈ Issue.photoSizes → ∃ e, fetchPhoto s = .error e) →
      (∃ e, fetchDefaultPhoto = .error e) →
      Issue.issueCredentialHandler env pinLen store user profileResult fetchPhoto
          fetchDefaultPhoto encodePhoto inp
        = Issue.issueCredentialCore env pinLen store
            (match profileResult with
             | .ok p => p
             | .error _ => Issue.fallbackProfile user) inp) := by
  refine ⟨rfl, ?_, ?_, ?_⟩
  · intro pre s post p hsizes hpre hs
    unfold Issue.getUserPhoto
    rw [hsizes, tryPhotoSizes_first_success fetchPhoto s p pre post hpre hs]
  · intro hall hdef
    obtain ⟨e, he⟩ := hdef
    unfold Issue.getUserPhoto
    rw [tryPhotoSizes_none fetchPhoto _ hall, he]
  · intro env pinLen store user profileResult inp hall hdef
    obtain ⟨e, he⟩ := hdef
    have hnone : Issue.getUserPhoto fetchPhoto fetchDefaultPhoto encodePhoto = none := by
      unfold Issue.getUserPhoto
      rw [tryPhotoSizes_none fetchPhoto _ hall, he]
    simp only [Issue.issueCredentialHandler, hnone]

/-- Witness for C9: with only the 96x96 variant available the lookup returns
that photo; with no variant available it returns null. -/
theorem photo_lookup_first_success_or_null_witness :
    samplePhotoFetch "96x96" = .ok "PIC" ∧
    samplePhotoFetch "240x240" = .error "ImageNotFound" ∧
    samplePhotoFetch "120x120" = .error "ImageNotFound" ∧
    Issue.getUserPhoto samplePhotoFetch (.error "NoPhoto") id = some "PIC" ∧
    Issue.getUserPhoto failPhotoFetch (.error "NoPhoto") id = none := by
  refine ⟨rfl, rfl, rfl, ?_, ?_⟩
  · exact (photo_lookup_first_success_or_null samplePhotoFetch (.error "NoPhoto") id).2.1
      ["240x240", "120x120"] "96x96" ["64x64", "48x48"] "PIC" rfl
      (by
        intro s' hs'
        refine ⟨"ImageNotFound", ?_⟩
        rcases List.mem_cons.mp hs' with h1 | h1
        · subst h1; rfl
        · rcases List.mem_cons.mp h1 with h2 | h2
          · subst h2; rfl
          · exact absurd h2 (List.not_mem_nil s'))
      rfl
  · exact (photo_lookup_first_success_or_null failPhotoFetch (.error "NoPhoto") id).2.2.1
      (fun s _ => ⟨"ImageNotFound", rfl⟩) ⟨"NoPhoto", rfl⟩

/-- C10: the effective PIN length is 4 when `ISSUANCE_PIN_CODE_LENGTH` is
unset, non-numeric, negative or greater than 6; when the effective length
`L` is positive, the generated PIN `10^(L-1) + pinRand` (with
`pinRand ≤ (10^L - 1) - 10^(L-1)`, the range of
`Math.floor(Math.random() * (max - min + 1))`) lies in
`[10^(L-1), 10^L - 1]` and is stored and returned as a string of exactly `L`
digits; when `L = 0` no pin is attached and the returned pin field is
null. -/
theorem pin_length_policy :
    Issue.pinCodeLength none = 4 ∧
    (∀ s, Issue.parseIntJs s = none → Issue.pinCodeLength (some s) = 4) ∧
    (∀ s i, Issue.parseIntJs s = some i → i < 0 ∨ 6 < i →
      Issue.pinCodeLength (some s) = 4) ∧
    (∀ envVar L env u freshId revUuid pinRand,
      Issue.pinCodeLength envVar = L → 0 < L →
      10 ^ (L - 1) + pinRand ≤ 10 ^ L - 1 →
      (Issue.buildIssuanceRequest env u freshId revUuid L pinRand).pin
          = some ({ value := Nat.repr (10 ^ (L - 1) + pinRand), length := L }) ∧
        10 ^ (L - 1) ≤ 10 ^ (L - 1) + pinRand ∧
        (Nat.repr (10 ^ (L - 1) + pinRand)).length = L) ∧
    (∀ envVar L env u store inp store' res,
      Issue.pinCodeLength envVar = L →
      (Issue.createIssuanceRequest env L store u inp).1 = .ok (store', res) →
      (0 < L → res.pin = some (Nat.repr (10 ^ (L - 1) + inp.pinRand)) ∧
        ∃ r, mapGet store' res.requestId = some r ∧ r.pin = res.pin) ∧
      (L = 0 → res.pin = none ∧
        ∃ r, mapGet store' res.requestId = some r ∧ r.pin = none)) := by
  refine ⟨rfl, ?_, ?_, ?_, ?_⟩
  · intro s hs
    unfold Issue.pinCodeLength
    by_cases he : s = ""
    · simp [he]
    · simp [he, hs]
  · intro s i hs hrange
    have he : s ≠ "" := by
      intro h0
      subst h0
      rw [show Issue.parseIntJs "" = none from rfl] at hs
      cases hs
    simp only [Issue.pinCodeLength, if_neg he, hs]
    exact if_pos hrange
  · intro envVar L env u freshId revUuid pinRand hL hLpos hrange
    have h10 : 10 ^ (L - 1) < 10 ^ L := by
      apply Nat.pow_lt_pow_right (by norm_num)
      omega
    have hd : 0 < 10 ^ L := pow_pos (by norm_num) L
    refine ⟨?_, Nat.le_add_right _ _, ?_⟩
    · unfold Issue.buildIssuanceRequest
      simp [hLpos]
    · apply repr_length_of_digits hLpos (Nat.le_add_right _ _)
      omega
  · intro envVar L env u store inp store' res hL hok
    rcases htok : inp.tokenResult with e | t
    · simp [Issue.createIssuanceRequest, getAccessToken, htok] at hok
    · rcases hapi : inp.apiResult with e | resp
      · simp [Issue.createIssuanceRequest, getAccessToken, htok, hapi] at hok
      · simp only [Issue.createIssuanceRequest, getAccessToken, htok, hapi,
          Except.ok.injEq, Prod.mk.injEq] at hok
        obtain ⟨hstore, hres⟩ := hok
        subst hstore
        subst hres
        constructor
        · intro hLpos
          have hpin : (Issue.buildIssuanceRequest env u inp.freshId inp.revocationUuid
              L inp.pinRand).pin
              = some ({ value := Nat.repr (10 ^ (L - 1) + inp.pinRand), length := L }) := by
            unfold Issue.buildIssuanceRequest
            simp [hLpos]
          constructor
          · show ((Issue.buildIssuanceRequest env u inp.freshId inp.revocationUuid
                L inp.pinRand).pin.map fun p => p.value)
              = some (Nat.repr (10 ^ (L - 1) + inp.pinRand))
            rw [hpin]
            rfl
          · exact ⟨_, mapGet_mapSet_self _ _ _, rfl⟩
        · intro hL0
          have hpin : (Issue.buildIssuanceRequest env u inp.freshId inp.revocationUuid
              L inp.pinRand).pin = none := by
            unfold Issue.buildIssuanceRequest
            simp [hL0]
          constructor
          · show ((Issue.buildIssuanceRequest env u inp.freshId inp.revocationUuid
                L inp.pinRand).pin.map fun p => p.value) = none
            rw [hpin]
            rfl
          · refine ⟨_, mapGet_mapSet_self _ _ _, ?_⟩
            show ((Issue.buildIssuanceRequest env u inp.freshId inp.revocationUuid
                L inp.pinRand).pin.map fun p => p.value) = none
            rw [hpin]
            rfl

/-- Witness for C10: invalid configurations fall back to length 4; a
6-digit configuration yields a six-digit PIN; the sample creation with the
default length 4 stores and returns the four-digit PIN string. -/
theorem pin_length_policy_witness :
    Issue.parseIntJs "abc" = none ∧
    Issue.parseIntJs "9" = some 9 ∧
    Issue.parseIntJs "-3" = some (-3) ∧
    Issue.pinCodeLength (some "abc") = 4 ∧
    Issue.pinCodeLength (some "9") = 4 ∧
    Issue.pinCodeLength (some "-3") = 4 ∧
    Issue.pinCodeLength (some "6") = 6 ∧
    ((Issue.buildIssuanceRequest sampleEnvI sampleUserData "r1" "rev-1" 6 0).pin
        = some ({ value := Nat.repr (10 ^ (6 - 1) + 0), length := 6 }) ∧
      10 ^ (6 - 1) ≤ 10 ^ (6 - 1) + 0 ∧
      (Nat.repr (10 ^ (6 - 1) + 0)).length = 6) ∧
    ((0 < 4 → sampleResI.pin = some (Nat.repr (10 ^ (4 - 1) + sampleInputsI.pinRand)) ∧
        ∃ r, mapGet sampleIssueStore1 sampleResI.requestId = some r ∧ r.pin = sampleResI.pin) ∧
      (4 = 0 → sampleResI.pin = none ∧
        ∃ r, mapGet sampleIssueStore1 sampleResI.requestId = some r ∧ r.pin = none)) :=
  ⟨rfl, rfl, rfl,
    pin_length_policy.2.1 "abc" rfl,
    pin_length_policy.2.2.1 "9" 9 (by decide) (Or.inr (by decide)),
    pin_length_policy.2.2.1 "-3" (-3) (by decide) (Or.inl (by decide)),
    rfl,
    pin_length_policy.2.2.2.1 (some "6") 6 sampleEnvI sampleUserData "r1" "rev-1" 0
      rfl (by decide) (by decide),
    pin_length_policy.2.2.2.2 none 4 sampleEnvI sampleUserData [] sampleInputsI
      sampleIssueStore1 sampleResI rfl rfl⟩

end VerifiedId
